import Mathlib

/-!
A shallow embedding of the pythonOBIEE client library and proofs about its
observable behavior.

Embedded components:
* `Report` and its `__post_init__` normalization, `report_name` / `original_name`
  accessors (src/pythonOBIEE/report.py);
* the export orchestrator: `_wait_for_export_completion` polling loop,
  `_export_report` exception wrapping, `export_to_file_like_object`,
  `export_and_save`, `_get_output_file_path`, `_write_data_to_file`,
  `_get_extension` (src/pythonOBIEE/obiee_analysis_export.py);
* the session context manager: `__enter__` / `__exit__`
  (src/pythonOBIEE/session_manager.py).

Modelling conventions:
* purely I/O aspects are made explicit: the remote service's successive poll
  responses become a `List Poll` (response paired with the elapsed seconds
  observed at that iteration), the filesystem becomes a list of existing paths,
  and the standard library's strict MIME-to-extension table
  (`mimetypes.guess_extension(_, strict=True)`, external to the repo) becomes a
  function parameter `String → Option String`;
* a raised Python exception becomes an `err` value carrying the exception class
  (`ErrKind`) and message; byte payloads are `List Nat`.
-/

/-- Whitespace characters removed by Python `str.strip()` (ASCII subset). -/
def isPyWhitespace (c : Char) : Bool :=
  c == ' ' || c == '\t' || c == '\n' || c == '\r' || c == Char.ofNat 11 || c == Char.ofNat 12

/-- Python `str.strip()`: drop leading and trailing whitespace. -/
def pyStrip (s : String) : String :=
  ⟨((s.data.dropWhile isPyWhitespace).reverse.dropWhile isPyWhitespace).reverse⟩

/-- Split a character list at every occurrence of `sep` (the pieces between
separators, like `String.splitOn` with a one-character separator). -/
def splitOnChar (sep : Char) : List Char → List (List Char)
  | [] => [[]]
  | c :: rest =>
    match splitOnChar sep rest with
    | [] => [[c]]
    | h :: t => if c = sep then [] :: h :: t else (c :: h) :: t

/-- Python `pathlib.Path(s).name` on POSIX: the final path component, after
dropping empty and `.` components. -/
def pathName (s : String) : String :=
  ⟨((((splitOnChar '/' s.data).filter fun c => c != [] && c != ['.']).getLast?).getD [])⟩

/-- Python truthiness of an optional string: `None` and `""` are falsy. -/
def truthy : Option String → Bool
  | none => false
  | some s => s != ""

/-- The Python exception classes observable from the library
(`exceptions.py` plus the built-ins it raises). -/
inductive ErrKind where
  | logonFailed
  | logoffFailed
  | exportFailed
  | timeoutErr
  | valueErr
  | fileExists
deriving DecidableEq

/-- A raised exception: class and message. -/
structure PyError where
  kind : ErrKind
  msg : String
deriving DecidableEq

/-- `Report` dataclass (report.py) after `__post_init__` has run. -/
structure Report where
  report_ref : String
  output_format : String
  output_folder : Option String := none
  custom_report_name : Option String := none
  refresh : Bool := false
deriving DecidableEq

/-- `Report._strip_and_log`: returns the stripped value together with the list
of warning subjects emitted (`[attr]` when stripping changed the value). -/
def strip_and_log (value attr : String) : String × List String :=
  (pyStrip value, if pyStrip value ≠ value then [attr] else [])

/-- One optional field of `__post_init__`: the strip is applied only when the
field is truthy (`if self.output_folder: ...`), so `None` and `""` pass
through untouched. -/
def post_init_field (v : Option String) (attr : String) : Option String × List String :=
  match v with
  | none => (none, [])
  | some s => if s = "" then (some s, []) else (some (strip_and_log s attr).1, (strip_and_log s attr).2)

/-- Constructing a `Report`: field assignment followed by `__post_init__`.
Returns the normalized record and the warnings emitted, in emission order. -/
def mkReport (report_ref output_format : String) (output_folder custom_report_name : Option String)
    (refresh : Bool) : Report × List String :=
  ({ report_ref := (strip_and_log report_ref "report_ref").1
     output_format := (strip_and_log output_format "output_format").1
     output_folder := (post_init_field output_folder "output_folder").1
     custom_report_name := (post_init_field custom_report_name "custom_report_name").1
     refresh := refresh },
   (strip_and_log report_ref "report_ref").2 ++ (strip_and_log output_format "output_format").2
     ++ (post_init_field output_folder "output_folder").2
     ++ (post_init_field custom_report_name "custom_report_name").2)

/-- `Report._generate_report_name`: `Path(self.report_ref).name`. -/
def Report.generate_report_name (r : Report) : String :=
  pathName r.report_ref

/-- `Report.report_name` property: the custom name when truthy, else the name
generated from the OBIEE path. -/
def Report.report_name (r : Report) : String :=
  if truthy r.custom_report_name then r.custom_report_name.getD ""
  else r.generate_report_name

/-- `Report.original_name` property: always the name generated from the path. -/
def Report.original_name (r : Report) : String :=
  r.generate_report_name

/-- The response of one `completeAnalysisExport` call. -/
structure ExportResult where
  exportStatus : String
  viewData : List Nat
  mimeType : String
deriving DecidableEq

/-- One iteration of the polling loop: the poll response and the elapsed
seconds (`(datetime.now() - start_time).total_seconds()`) observed right after
that poll. -/
structure Poll where
  result : ExportResult
  elapsed : ℚ
deriving DecidableEq

/-- Outcome of an export-side operation: a value, a raised exception, or
`pending` when the supplied poll trace ran out while the loop would continue. -/
inductive ExportOutcome (α : Type) where
  | ok (a : α)
  | err (e : PyError)
  | pending
deriving DecidableEq

/-- The `TimeoutError` message. The real message interpolates the
`timedelta`-formatted elapsed time and the timeout; no claim inspects it, so
the interpolation is abstracted away. -/
def timeoutMsg : String :=
  "Export timed out."

/-- Message of the `ExportFailedError` raised on `exportStatus` `Error`. -/
def errorStatusMsg : String :=
  "Export failed with an error. OBIEE returned exportStatus \x27Error\x27."

/-- Message of the `ValueError` raised on an unrecognized `exportStatus`. -/
def unknownStatusMsg (status : String) : String :=
  "OBIEE returned an unknown exportStatus: " ++ status

/-- The body of `_wait_for_export_completion`'s `while True` loop, consuming
the poll trace. `n` accumulates the number of status queries issued; each
iteration polls first, then checks the timeout, then dispatches on the status.
Returns the outcome together with the total number of polls issued. -/
def waitLoop (timeout : ℚ) : List Poll → Nat → ExportOutcome ExportResult × Nat
  | [], n => (.pending, n)
  | p :: rest, n =>
    if p.elapsed > timeout then
      (.err ⟨.timeoutErr, timeoutMsg⟩, n + 1)
    else if p.result.exportStatus = "InProgress" then
      waitLoop timeout rest (n + 1)
    else if p.result.exportStatus = "Error" then
      (.err ⟨.exportFailed, errorStatusMsg⟩, n + 1)
    else if p.result.exportStatus = "Done" then
      (.ok p.result, n + 1)
    else
      (.err ⟨.valueErr, unknownStatusMsg p.result.exportStatus⟩, n + 1)

/-- `_wait_for_export_completion(query_id)`, run against a given poll trace. -/
def wait_for_export_completion (timeout : ℚ) (trace : List Poll) :
    ExportOutcome ExportResult × Nat :=
  waitLoop timeout trace 0

/-- `_export_report`: initiation plus polling inside a
`try ... except Fault ... except Exception` block. All exceptions the polling
loop raises (`TimeoutError`, `ValueError`, `ExportFailedError`) are Python
`Exception`s and not zeep `Fault`s, so the generic handler converts each into
`ExportFailedError("Export failed.")`. Transport faults from the service calls
themselves are not modelled (the traces here are successful responses). -/
def export_report (timeout : ℚ) (trace : List Poll) :
    ExportOutcome ExportResult × Nat :=
  match wait_for_export_completion timeout trace with
  | (.ok r, n) => (.ok r, n)
  | (.err _, n) => (.err ⟨.exportFailed, "Export failed."⟩, n)
  | (.pending, n) => (.pending, n)

/-- `_get_extension(mime_type)`: `guess_extension(mime_type, strict=True)`,
which is `None` for an unmapped MIME type. `guessExtension` stands for the
standard library's strict MIME-to-extension table. -/
def get_extension (guessExtension : String → Option String) (mime_type : String) :
    Option String :=
  guessExtension mime_type

/-- `export_to_file_like_object(report)`: run the export, then wrap the
payload bytes in an in-memory stream (modelled by the byte list itself) and
pair them with the derived extension. -/
def export_to_file_like_object (guessExtension : String → Option String) (timeout : ℚ)
    (trace : List Poll) : ExportOutcome (List Nat × Option String) × Nat :=
  match export_report timeout trace with
  | (.ok r, n) => (.ok (r.viewData, get_extension guessExtension r.mimeType), n)
  | (.err e, n) => (.err e, n)
  | (.pending, n) => (.pending, n)

/-- Python f-string rendering of the possibly-`None` extension inside the
file-name interpolation of `_get_output_file_path`: `None` renders as the
literal string `"None"`. -/
def renderOptStr : Option String → String
  | none => "None"
  | some s => s

/-- `pathlib`'s `/` join for the folder shapes the claims use:
`Path("") / name` is `Path(name)` (the current directory), otherwise the
separator is inserted. -/
def joinPath (folder name : String) : String :=
  if folder = "" then name else folder ++ "/" ++ name

/-- `_get_output_file_path(export_result, report)`: folder joined with the
report name followed by the rendered extension. The `mkdir` side effect is
not modelled (only file-path existence matters to the claims). -/
def get_output_file_path (guessExtension : String → Option String) (r : ExportResult)
    (report : Report) : String :=
  joinPath (report.output_folder.getD "")
    (report.report_name ++ renderOptStr (get_extension guessExtension r.mimeType))

/-- `_write_data_to_file`: raise `FileExistsError` when the target exists and
overwriting is disabled, else write (the new path joins the filesystem). -/
def write_data_to_file (overwrite_existing : Bool) (fs : List String) (path : String) :
    ExportOutcome (List String) :=
  if path ∈ fs ∧ overwrite_existing = false then
    .err ⟨.fileExists, "File " ++ path ++ " already exists and overwriting is disabled."⟩
  else
    .ok (path :: fs)

/-- `export_and_save(report)`: fail fast with `ValueError` when
`report.output_folder is None`, else export remotely, then build the output
path and write. Returns the outcome (the saved path on success) and the number
of status queries issued. -/
def export_and_save (guessExtension : String → Option String) (timeout : ℚ)
    (overwrite_existing : Bool) (fs : List String) (report : Report) (trace : List Poll) :
    ExportOutcome String × Nat :=
  match report.output_folder with
  | none => (.err ⟨.valueErr, "Output folder is required when exporting to file."⟩, 0)
  | some _ =>
    match export_report timeout trace with
    | (.ok r, n) =>
      match write_data_to_file overwrite_existing fs (get_output_file_path guessExtension r report) with
      | .ok _ => (.ok (get_output_file_path guessExtension r report), n)
      | .err e => (.err e, n)
      | .pending => (.pending, n)
    | (.err e, n) => (.err e, n)
    | (.pending, n) => (.pending, n)

/-- Result of the remote `logon(username, password)` call. -/
inductive LogonResult where
  | success (token : String)
  | fault (msg : String)
deriving DecidableEq

/-- Result of the remote `logoff(session_id)` call. -/
inductive LogoffResult where
  | success
  | fault (msg : String)
deriving DecidableEq

/-- The mutable attributes of an `OBIEESession` instance. -/
structure SessionState where
  username : String
  password : Option String
  session_id : Option String
deriving DecidableEq

/-- Outcome of `OBIEESession.__enter__`: the returned token or raised error,
and the instance state afterwards. -/
structure EnterOutcome where
  result : ExportOutcome String
  state : SessionState
deriving DecidableEq

/-- `OBIEESession.__enter__`: attempt logon; on success store and return the
session id, on `Fault` raise `LogonFailedError` carrying the fault text. The
`finally` block clears the password in both cases. -/
def OBIEESession.enter (st : SessionState) (logon : LogonResult) : EnterOutcome :=
  match logon with
  | .success t =>
    ⟨.ok t, { st with session_id := some t, password := none }⟩
  | .fault m =>
    ⟨.err ⟨.logonFailed, "Logon failed. " ++ m⟩, { st with password := none }⟩

/-- Outcome of `OBIEESession.__exit__`: the raised error if any, the instance
state afterwards, and how many logoff calls were issued. -/
structure ExitOutcome where
  result : ExportOutcome Unit
  state : SessionState
  logoff_attempts : Nat
deriving DecidableEq

/-- `OBIEESession.__exit__`: the guard is `if self._session_id:` — Python
truthiness, so both `None` and an empty-string token skip the whole block
(no logoff attempt, no clearing). With a truthy token, logoff is attempted
once; a `Fault` becomes `LogoffFailedError` carrying the fault text, and the
`finally` block clears the session id either way. -/
def OBIEESession.exit (st : SessionState) (logoff : LogoffResult) : ExitOutcome :=
  if truthy st.session_id then
    match logoff with
    | .success => ⟨.ok (), { st with session_id := none }, 1⟩
    | .fault m => ⟨.err ⟨.logoffFailed, "Logoff failed. " ++ m⟩, { st with session_id := none }, 1⟩
  else ⟨.ok (), st, 0⟩

/-! ### Helper lemmas -/

/-- A completed wait issued at least one status query beyond the accumulator. -/
lemma waitLoop_ok_lt (timeout : ℚ) :
    ∀ (trace : List Poll) (n m : Nat) (res : ExportResult),
      waitLoop timeout trace n = (.ok res, m) → n < m := by
  intro trace
  induction trace with
  | nil => intro n m res h; simp [waitLoop] at h
  | cons p rest ih =>
    intro n m res h
    rw [waitLoop] at h
    by_cases h1 : p.elapsed > timeout
    · rw [if_pos h1] at h
      simp at h
    · rw [if_neg h1] at h
      by_cases h2 : p.result.exportStatus = "InProgress"
      · rw [if_pos h2] at h
        exact Nat.lt_of_succ_lt_succ (Nat.lt_succ_of_lt (ih (n + 1) m res h))
      · rw [if_neg h2] at h
        by_cases h3 : p.result.exportStatus = "Error"
        · rw [if_pos h3] at h; simp at h
        · rw [if_neg h3] at h
          by_cases h4 : p.result.exportStatus = "Done"
          · rw [if_pos h4] at h
            simp at h
            omega
          · rw [if_neg h4] at h; simp at h

/-! ### Claims about the session lifecycle -/

/-- C9: for every session scope, the stored password is cleared immediately
after the logon attempt completes, both when logon succeeds and when it raises
a fault. -/
theorem C9_password_cleared (st : SessionState) (t m : String) :
    (OBIEESession.enter st (.success t)).state.password = none ∧
    (OBIEESession.enter st (.fault m)).state.password = none := by
  exact ⟨rfl, rfl⟩

/-- C6: for every session scope starting with no stored token: a faulting
logon raises `LogonFailed` carrying the fault text and leaves exit a no-op
(no logoff attempt, no error); a successful logon returning a truthy token,
followed by a faulting logoff, raises `LogoffFailed` and still clears the
stored token. A logon returning the Python-falsy empty-string token falls
under the same `if self._session_id:` guard as `None`: exit skips logoff
entirely (so "logoff then fails" cannot arise for it). Logoff is attempted at
most once per entry. -/
theorem C6_session_scope (init : SessionState) (lg : LogonResult) (lf : LogoffResult)
    (h : init.session_id = none) :
    (∀ m, lg = .fault m →
      (OBIEESession.enter init lg).result = .err ⟨.logonFailed, "Logon failed. " ++ m⟩ ∧
      (OBIEESession.exit (OBIEESession.enter init lg).state lf).result = .ok () ∧
      (OBIEESession.exit (OBIEESession.enter init lg).state lf).logoff_attempts = 0) ∧
    (∀ t m, lg = .success t → t ≠ "" → lf = .fault m →
      (OBIEESession.exit (OBIEESession.enter init lg).state lf).result
        = .err ⟨.logoffFailed, "Logoff failed. " ++ m⟩ ∧
      (OBIEESession.exit (OBIEESession.enter init lg).state lf).state.session_id = none) ∧
    (lg = .success "" →
      (OBIEESession.exit (OBIEESession.enter init lg).state lf).result = .ok () ∧
      (OBIEESession.exit (OBIEESession.enter init lg).state lf).logoff_attempts = 0) ∧
    (OBIEESession.exit (OBIEESession.enter init lg).state lf).logoff_attempts ≤ 1 := by
  refine ⟨?_, ?_, ?_, ?_⟩
  · rintro m rfl
    refine ⟨rfl, ?_, ?_⟩ <;> simp [OBIEESession.enter, OBIEESession.exit, truthy, h]
  · rintro t m rfl ht rfl
    constructor <;> simp [OBIEESession.enter, OBIEESession.exit, truthy, ht]
  · rintro rfl
    constructor <;> simp [OBIEESession.enter, OBIEESession.exit, truthy]
  · cases lg with
    | success t =>
      cases lf <;>
        · unfold OBIEESession.enter OBIEESession.exit
          dsimp only
          split <;> simp
    | fault m => cases lf <;> simp [OBIEESession.enter, OBIEESession.exit, truthy, h]

/-- Witness for C6: a concrete faulting logon (`LogonFailed` carries the fault
text, exit attempts no logoff) and a concrete successful logon with a truthy
token followed by a faulting logoff (`LogoffFailed` raised, token cleared). -/
theorem C6_session_scope_witness :
    ((OBIEESession.enter ⟨"u", some "pw", none⟩ (.fault "bad")).result
      = .err ⟨.logonFailed, "Logon failed. " ++ "bad"⟩ ∧
     (OBIEESession.exit (OBIEESession.enter ⟨"u", some "pw", none⟩ (.fault "bad")).state
       LogoffResult.success).logoff_attempts = 0) ∧
    ((OBIEESession.exit (OBIEESession.enter ⟨"u", some "pw", none⟩ (.success "tok")).state
       (.fault "net")).result = .err ⟨.logoffFailed, "Logoff failed. " ++ "net"⟩ ∧
     (OBIEESession.exit (OBIEESession.enter ⟨"u", some "pw", none⟩ (.success "tok")).state
       (.fault "net")).state.session_id = none) := by
  have h1 := C6_session_scope ⟨"u", some "pw", none⟩ (.fault "bad") LogoffResult.success rfl
  have h2 := C6_session_scope ⟨"u", some "pw", none⟩ (.success "tok") (.fault "net") rfl
  exact ⟨⟨(h1.1 "bad" rfl).1, (h1.1 "bad" rfl).2.2⟩,
    h2.2.1 "tok" "net" rfl (by decide) rfl⟩

/-! ### Claims about the report descriptor -/

/-- C5 counterexample: construction performs no emptiness validation —
`report_ref` can be empty after construction (directly, or by trimming an
all-whitespace input), refuting the "never empty after construction"
invariant. -/
theorem C5_counterexample :
    (mkReport "" "CSV" none none false).1.report_ref = "" ∧
    (mkReport "   " "CSV" none none false).1.report_ref = "" := by
  exact ⟨rfl, by decide⟩

/-- C5 (amended): construction trims `report_ref` and `output_format`
unconditionally and the truthy optional fields; whenever trimming changes a
field's value, the trimmed value is stored and a warning is emitted — but
nothing enforces non-emptiness. In particular `" a/b/c "` becomes `"a/b/c"`
with a warning. -/
theorem C5_trim_with_warning (ref fmt : String) (folder custom : Option String) (refresh : Bool) :
    (mkReport ref fmt folder custom refresh).1.report_ref = pyStrip ref ∧
    (mkReport ref fmt folder custom refresh).1.output_format = pyStrip fmt ∧
    (pyStrip ref ≠ ref → "report_ref" ∈ (mkReport ref fmt folder custom refresh).2) ∧
    (pyStrip fmt ≠ fmt → "output_format" ∈ (mkReport ref fmt folder custom refresh).2) ∧
    (∀ s, folder = some s → s ≠ "" →
      (mkReport ref fmt folder custom refresh).1.output_folder = some (pyStrip s) ∧
      (pyStrip s ≠ s → "output_folder" ∈ (mkReport ref fmt folder custom refresh).2)) ∧
    (∀ s, custom = some s → s ≠ "" →
      (mkReport ref fmt folder custom refresh).1.custom_report_name = some (pyStrip s) ∧
      (pyStrip s ≠ s → "custom_report_name" ∈ (mkReport ref fmt folder custom refresh).2)) ∧
    (mkReport " a/b/c " "CSV" none none false).1.report_ref = "a/b/c" ∧
    "report_ref" ∈ (mkReport " a/b/c " "CSV" none none false).2 := by
  refine ⟨rfl, rfl, ?_, ?_, ?_, ?_, by decide, by decide⟩
  · intro h
    simp [mkReport, strip_and_log, if_pos h]
  · intro h
    simp [mkReport, strip_and_log, if_pos h]
  · rintro s rfl hs
    refine ⟨?_, ?_⟩
    · simp [mkReport, post_init_field, strip_and_log, hs]
    · intro h
      simp [mkReport, post_init_field, strip_and_log, hs, if_pos h]
  · rintro s rfl hs
    refine ⟨?_, ?_⟩
    · simp [mkReport, post_init_field, strip_and_log, hs]
    · intro h
      simp [mkReport, post_init_field, strip_and_log, hs, if_pos h]

/-- Witness for C5 (amended): a concrete input whose trimming changes the
value, with the warning present. -/
theorem C5_trim_with_warning_witness :
    pyStrip " x " ≠ " x " ∧ "report_ref" ∈ (mkReport " x " "CSV" none none false).2 := by
  have h : pyStrip " x " ≠ " x " := by decide
  exact ⟨h, (C5_trim_with_warning " x " "CSV" none none false).2.2.1 h⟩

/-- C8 counterexample: a descriptor whose `custom_report_name` is set to the
empty string (Python-falsy) does not win: `report_name` falls back to the
path-derived name, so `report_name` differs from the set custom name. -/
theorem C8_counterexample :
    (mkReport "a/b" "CSV" none (some "") false).1.custom_report_name = some "" ∧
    (mkReport "a/b" "CSV" none (some "") false).1.report_name = "b" ∧
    (mkReport "a/b" "CSV" none (some "") false).1.report_name ≠ "" := by
  refine ⟨rfl, by decide, by decide⟩

/-- C8 (amended): `report_name` equals `custom_report_name` whenever the
custom name is set to a non-empty string, regardless of `report_ref`; with no
custom name, or an empty one, it equals the final path segment of
`report_ref`; and `original_name` always equals the final path segment of
`report_ref`, even when a custom name is set. -/
theorem C8_names (r : Report) :
    (∀ s, r.custom_report_name = some s → s ≠ "" → r.report_name = s) ∧
    ((r.custom_report_name = none ∨ r.custom_report_name = some "") →
      r.report_name = pathName r.report_ref) ∧
    r.original_name = pathName r.report_ref ∧
    (mkReport "dir/sub/rep" "CSV" none (some "custom") false).1.report_name = "custom" ∧
    (mkReport "dir/sub/rep" "CSV" none (some "custom") false).1.original_name = "rep" ∧
    (mkReport "dir/sub/rep" "CSV" none none false).1.report_name = "rep" := by
  refine ⟨?_, ?_, rfl, by decide, by decide, by decide⟩
  · intro s hs hne
    unfold Report.report_name
    rw [hs]
    simp [truthy, hne]
  · rintro (hc | hc) <;>
      · unfold Report.report_name
        rw [hc]
        simp [truthy, Report.generate_report_name]

/-- Witness for C8 (amended): a concrete descriptor with a non-empty custom
name resolves `report_name` to it. -/
theorem C8_names_witness :
    ({ report_ref := "a/b", output_format := "CSV",
       custom_report_name := some "n" : Report }).report_name = "n" :=
  (C8_names _).1 "n" rfl (by decide)

/-! ### Claims about the export orchestrator -/

/-- C1: for a status sequence `[InProgress, InProgress, Done]` observed within
the timeout, whose final poll carries payload `P` and MIME type `M`,
`export_to_file_like_object` returns the payload bytes together with exactly
the strict MIME-to-extension mapping of `M`. -/
theorem C1_export_to_memory (g : String → Option String) (timeout e1 e2 e3 : ℚ)
    (v1 v2 P : List Nat) (m1 m2 M : String)
    (h1 : e1 ≤ timeout) (h2 : e2 ≤ timeout) (h3 : e3 ≤ timeout) :
    export_to_file_like_object g timeout
      [⟨⟨"InProgress", v1, m1⟩, e1⟩, ⟨⟨"InProgress", v2, m2⟩, e2⟩, ⟨⟨"Done", P, M⟩, e3⟩]
      = (.ok (P, get_extension g M), 3) := by
  have h1' : ¬ (e1 > timeout) := not_lt.mpr h1
  have h2' : ¬ (e2 > timeout) := not_lt.mpr h2
  have h3' : ¬ (e3 > timeout) := not_lt.mpr h3
  unfold export_to_file_like_object export_report wait_for_export_completion
  rw [waitLoop, if_neg h1']
  rw [waitLoop, if_neg h2']
  rw [waitLoop, if_neg h3']
  simp

/-- Witness for C1 at a concrete trace, mapping and timeout. -/
theorem C1_export_to_memory_witness :
    export_to_file_like_object (fun _ => some ".csv") 300
      [⟨⟨"InProgress", [], ""⟩, 1⟩, ⟨⟨"InProgress", [], ""⟩, 2⟩, ⟨⟨"Done", [7, 8], "text/csv"⟩, 3⟩]
      = (.ok ([7, 8], some ".csv"), 3) := by
  have h := C1_export_to_memory (fun _ => some ".csv") 300 1 2 3 [] [] [7, 8] "" "" "text/csv"
    (by norm_num) (by norm_num) (by norm_num)
  simpa [get_extension] using h

/-- C2: evaluation at a failing input. With timeout 300 and polls staying
`InProgress` (elapsed 2, then 301), the polling loop raises `TimeoutError`
after the second poll and the third poll response is never queried — but both
public operations surface `ExportFailedError` with message "Export failed.",
not a `TimeoutError`: the generic `except Exception` handler in
`_export_report` swallows it, contradicting both methods' docstrings. -/
theorem C2_timeout_swallowed :
    wait_for_export_completion 300
      [⟨⟨"InProgress", [], ""⟩, 2⟩, ⟨⟨"InProgress", [], ""⟩, 301⟩, ⟨⟨"InProgress", [], ""⟩, 303⟩]
      = (.err ⟨.timeoutErr, timeoutMsg⟩, 2) ∧
    export_to_file_like_object (fun _ => some ".csv") 300
      [⟨⟨"InProgress", [], ""⟩, 2⟩, ⟨⟨"InProgress", [], ""⟩, 301⟩, ⟨⟨"InProgress", [], ""⟩, 303⟩]
      = (.err ⟨.exportFailed, "Export failed."⟩, 2) ∧
    export_and_save (fun _ => some ".csv") 300 false []
      { report_ref := "a/b", output_format := "CSV", output_folder := some "out" }
      [⟨⟨"InProgress", [], ""⟩, 2⟩, ⟨⟨"InProgress", [], ""⟩, 301⟩, ⟨⟨"InProgress", [], ""⟩, 303⟩]
      = (.err ⟨.exportFailed, "Export failed."⟩, 2) := by
  refine ⟨?_, ?_, ?_⟩ <;> decide

/-- C3 counterexample: with status `"Weird"` on the first poll, both public
operations raise `ExportFailedError` with the generic message
"Export failed." — not a `ValueError`, and the message does not mention
`"Weird"`: the `except Exception` handler of `_export_report` re-wraps the
inner `ValueError`. -/
theorem C3_counterexample :
    export_to_file_like_object (fun _ => some ".csv") 300 [⟨⟨"Weird", [], "m"⟩, 1⟩]
      = (.err ⟨.exportFailed, "Export failed."⟩, 1) ∧
    export_and_save (fun _ => some ".csv") 300 false []
      { report_ref := "a/b", output_format := "CSV", output_folder := some "out" }
      [⟨⟨"Weird", [], "m"⟩, 1⟩]
      = (.err ⟨.exportFailed, "Export failed."⟩, 1) ∧
    ErrKind.exportFailed ≠ ErrKind.valueErr ∧
    ¬ ("Weird".data <:+: "Export failed.".data) := by
  refine ⟨by decide, by decide, by decide, by decide⟩

/-- C3 (amended): for every status outside the closed vocabulary, the polling
loop itself raises a `ValueError` whose message names the unrecognized status
and no further poll is issued; the public operations, however, surface it as
`ExportFailedError` with the generic message "Export failed.". -/
theorem C3_unknown_status (st : String) (v : List Nat) (m : String) (e timeout : ℚ)
    (rest : List Poll) (g : String → Option String)
    (hs1 : st ≠ "InProgress") (hs2 : st ≠ "Error") (hs3 : st ≠ "Done") (he : e ≤ timeout) :
    wait_for_export_completion timeout (⟨⟨st, v, m⟩, e⟩ :: rest)
      = (.err ⟨.valueErr, unknownStatusMsg st⟩, 1) ∧
    export_to_file_like_object g timeout (⟨⟨st, v, m⟩, e⟩ :: rest)
      = (.err ⟨.exportFailed, "Export failed."⟩, 1) := by
  have he' : ¬ (e > timeout) := not_lt.mpr he
  constructor
  · unfold wait_for_export_completion
    rw [waitLoop, if_neg he', if_neg hs1, if_neg hs2, if_neg hs3]
  · unfold export_to_file_like_object export_report wait_for_export_completion
    rw [waitLoop, if_neg he', if_neg hs1, if_neg hs2, if_neg hs3]

/-- Witness for C3 (amended) at status `"Weird"`. -/
theorem C3_unknown_status_witness :
    wait_for_export_completion 300 [⟨⟨"Weird", [], "m"⟩, 1⟩]
      = (.err ⟨.valueErr, unknownStatusMsg "Weird"⟩, 1) :=
  (C3_unknown_status "Weird" [] "m" 1 300 [] (fun _ => none)
    (by decide) (by decide) (by decide) (by norm_num)).1

/-- C4 counterexample: with a MIME type absent from the strict mapping, both
operations complete without any error: `export_to_file_like_object` returns
`none` as the extension, and `export_and_save` renders it as the literal
string "None" in the saved file name — not a hard failure. -/
theorem C4_counterexample :
    export_to_file_like_object (fun _ => none) 300 [⟨⟨"Done", [7], "application/x-weird"⟩, 1⟩]
      = (.ok ([7], none), 1) ∧
    export_and_save (fun _ => none) 300 false []
      { report_ref := "a/rep", output_format := "CSV", output_folder := some "out" }
      [⟨⟨"Done", [7], "application/x-weird"⟩, 1⟩]
      = (.ok "out/repNone", 1) := by
  refine ⟨by decide, by decide⟩

/-- C4 (amended): an unmapped MIME type is not a failure. Under a completed
export whose MIME type has no entry in the strict mapping,
`export_to_file_like_object` succeeds with an absent (`none`) extension and
`export_and_save` succeeds, appending the rendering "None" to the file name. -/
theorem C4_unmapped_mime (g : String → Option String) (timeout : ℚ) (trace : List Poll)
    (res : ExportResult) (n : Nat) (rep : Report) (folder : String) (fs : List String) (ow : Bool)
    (hw : wait_for_export_completion timeout trace = (.ok res, n))
    (hm : g res.mimeType = none)
    (hf : rep.output_folder = some folder)
    (hcol : ¬ (joinPath folder (rep.report_name ++ "None") ∈ fs ∧ ow = false)) :
    export_to_file_like_object g timeout trace = (.ok (res.viewData, none), n) ∧
    export_and_save g timeout ow fs rep trace
      = (.ok (joinPath folder (rep.report_name ++ "None")), n) := by
  constructor
  · unfold export_to_file_like_object export_report
    rw [hw]
    simp [get_extension, hm]
  · unfold export_and_save export_report
    rw [hf, hw]
    simp [write_data_to_file, get_output_file_path, get_extension, renderOptStr, hm, hf,
      if_neg hcol]

/-- Witness for C4 (amended) at a concrete unmapped MIME type. -/
theorem C4_unmapped_mime_witness :
    export_and_save (fun _ => none) 100 false []
      { report_ref := "f/g", output_format := "PDF", output_folder := some "dir" }
      [⟨⟨"Done", [1, 2], "app/x"⟩, 1⟩]
      = (.ok (joinPath "dir" (Report.report_name
          { report_ref := "f/g", output_format := "PDF", output_folder := some "dir" } ++ "None")), 1) :=
  (C4_unmapped_mime (fun _ => none) 100 [⟨⟨"Done", [1, 2], "app/x"⟩, 1⟩]
    ⟨"Done", [1, 2], "app/x"⟩ 1
    { report_ref := "f/g", output_format := "PDF", output_folder := some "dir" }
    "dir" [] false (by decide) rfl rfl (by decide)).2

/-- C7: with `overwrite_existing = False` and a pre-existing target path,
`export_and_save` raises `FileExistsError` — and the existence check happens
only at write time: the remote export has already run to completion (the full
poll count `n ≥ 1` of the completed wait was issued; the overwrite policy
never short-circuits the remote call). -/
theorem C7_overwrite_check_after_export (g : String → Option String) (timeout : ℚ)
    (trace : List Poll) (res : ExportResult) (n : Nat) (rep : Report) (folder : String)
    (fs : List String)
    (hw : wait_for_export_completion timeout trace = (.ok res, n))
    (hf : rep.output_folder = some folder)
    (hex : get_output_file_path g res rep ∈ fs) :
    export_and_save g timeout false fs rep trace
      = (.err ⟨.fileExists, "File " ++ get_output_file_path g res rep
          ++ " already exists and overwriting is disabled."⟩, n) ∧
    1 ≤ n := by
  constructor
  · unfold export_and_save export_report
    rw [hf, hw]
    simp [write_data_to_file]
    rw [if_pos hex]
  · unfold wait_for_export_completion at hw
    exact waitLoop_ok_lt timeout trace 0 n res hw

/-- Witness for C7 at a concrete completed export and colliding path. -/
theorem C7_overwrite_check_after_export_witness :
    export_and_save (fun _ => some ".csv") 300 false ["out/rep.csv"]
      { report_ref := "a/rep", output_format := "CSV", output_folder := some "out" }
      [⟨⟨"Done", [5], "text/csv"⟩, 2⟩]
      = (.err ⟨.fileExists, "File " ++ get_output_file_path (fun _ => some ".csv")
          ⟨"Done", [5], "text/csv"⟩
          { report_ref := "a/rep", output_format := "CSV", output_folder := some "out" }
          ++ " already exists and overwriting is disabled."⟩, 1) :=
  (C7_overwrite_check_after_export (fun _ => some ".csv") 300
    [⟨⟨"Done", [5], "text/csv"⟩, 2⟩] ⟨"Done", [5], "text/csv"⟩ 1
    { report_ref := "a/rep", output_format := "CSV", output_folder := some "out" }
    "out" ["out/rep.csv"] (by decide) rfl (by decide)).1

/-- C10: the fail-fast folder validation of `export_and_save` rejects only
`None`. A descriptor constructed with `output_folder = ""` keeps the empty
string (construction-time trimming skips falsy fields), passes the validation
(the remote export is issued exactly as the polling dictates, never the
zero-poll fail-fast), and on completion the output path is built from the
empty folder: a bare relative file name in the current directory. -/
theorem C10_empty_output_folder (ref fmt : String) (custom : Option String) (refresh : Bool)
    (g : String → Option String) (timeout : ℚ) (trace : List Poll) (fs : List String) (ow : Bool)
    (res : ExportResult) (n : Nat) :
    (mkReport ref fmt (some "") custom refresh).1.output_folder = some "" ∧
    (export_and_save g timeout ow fs (mkReport ref fmt (some "") custom refresh).1 trace).2
      = (export_report timeout trace).2 ∧
    (wait_for_export_completion timeout trace = (.ok res, n) →
      ¬ ((mkReport ref fmt (some "") custom refresh).1.report_name ++ renderOptStr (g res.mimeType) ∈ fs
          ∧ ow = false) →
      export_and_save g timeout ow fs (mkReport ref fmt (some "") custom refresh).1 trace
        = (.ok ((mkReport ref fmt (some "") custom refresh).1.report_name
            ++ renderOptStr (g res.mimeType)), n)) := by
  have hof : (mkReport ref fmt (some "") custom refresh).1.output_folder = some "" := rfl
  refine ⟨rfl, ?_, ?_⟩
  · unfold export_and_save
    rw [hof]
    rcases h : export_report timeout trace with ⟨o, m⟩
    cases o with
    | ok r =>
      cases hw2 : write_data_to_file ow fs
          (get_output_file_path g r (mkReport ref fmt (some "") custom refresh).1) with
      | ok l => simp [h, hw2]
      | err e => simp [h, hw2]
      | pending => simp [h, hw2]
    | err e => simp [h]
    | pending => simp [h]
  · intro hw hcol
    unfold export_and_save export_report
    rw [hof, hw]
    simp [get_output_file_path, joinPath, write_data_to_file, get_extension, hof, if_neg hcol]

/-- Witness for C10: a concrete descriptor with empty-string output folder
exports and saves to a bare relative file name. -/
theorem C10_empty_output_folder_witness :
    export_and_save (fun _ => some ".pdf") 300 false []
      (mkReport "x/y" "PDF" (some "") none false).1
      [⟨⟨"Done", [9], "application/pdf"⟩, 1⟩]
      = (.ok ((mkReport "x/y" "PDF" (some "") none false).1.report_name
          ++ renderOptStr ((fun _ => some ".pdf") "application/pdf")), 1) :=
  (C10_empty_output_folder "x/y" "PDF" none false (fun _ => some ".pdf") 300
    [⟨⟨"Done", [9], "application/pdf"⟩, 1⟩] [] false
    ⟨"Done", [9], "application/pdf"⟩ 1).2.2 (by decide) (by decide)
